import Mathlib

/-!
Shallow embedding of the BLE Wi-Fi provisioning engine
(`src/src-tauri/src/main.rs`) and verification of its specification.

Bytes are modelled as `Nat` (a byte is a value `< 256`); Rust integer
casts (`as u16`, `as u8`) are modelled by explicit `% 65536` / `% 256`.
Rust `Vec<u8>` becomes `List Nat`, `Option`/`Result` become
`Option`/`Except`.  Async transport calls are abstracted as oracle
functions supplied to the embedded control flow, which additionally
returns an explicit trace of the effects it issued, so that ordering
and absence of effects can be stated.
-/

namespace NetCfg

/-! ## Constants (main.rs lines 11-17) -/

def SERVICE_UUID : Nat := 0x0000e40200001000800000805f9b34fb
def WRITE_UUID : Nat := 0x0000e40300001000800000805f9b34fb
def STATUS_UUID : Nat := 0x0000e40400001000800000805f9b34fb

def PREFIX_ID : Nat := 0x03e4
def FIRST_PACKET_DATA_MAX : Nat := 11
def NEXT_PACKET_DATA_MAX : Nat := 17

/-! ## status_name (main.rs lines 40-55)

The Rust `match` on a `u16` is an ordered comparison against the
literal arms, modelled by an if-chain. -/

def status_name (code : Nat) : String :=
  if code = 0x0100 then "READY"
  else if code = 0x0101 then "START"
  else if code = 0x0102 then "INPROCESS"
  else if code = 0x0103 then "CERT_READY"
  else if code = 0x0104 then "SUCCESS"
  else if code = 0x0105 then "REBOOTING"
  else if code = 0x0106 then "IDLE"
  else if code = 0x0107 then "SSID"
  else if code = 0x0108 then "PWD"
  else if code = 0x0109 then "CERT_ERR"
  else if code = 0x010A then "ERROR"
  else "UNKNOWN"

/-! ## contains_marker (main.rs lines 57-59)

`data.windows(2).any(|w| w == [0xAB, 0x0A])`. -/

def contains_marker : List Nat → Bool
  | a :: b :: rest => (a == 0xAB && b == 0x0A) || contains_marker (b :: rest)
  | _ => false

/-! ## matches_device_name (main.rs lines 61-63)

Names are byte strings (UTF-8); `to_ascii_lowercase` maps the bytes
of ASCII capital letters down, and `contains("netcfg")` is a
contiguous-subsequence search on the bytes. -/

def ascii_lower (c : Nat) : Nat :=
  if 65 ≤ c ∧ c ≤ 90 then c + 32 else c

/-- `startsWithBytes needle hay`: `hay` begins with `needle`. -/
def startsWithBytes : List Nat → List Nat → Bool
  | [], _ => true
  | _ :: _, [] => false
  | a :: as_, b :: bs => a == b && startsWithBytes as_ bs

/-- `containsBytes hay needle`: `needle` occurs contiguously in `hay`
(Rust `str::contains`). -/
def containsBytes (hay needle : List Nat) : Bool :=
  if startsWithBytes needle hay then true
  else match hay with
    | [] => false
    | _ :: t => containsBytes t needle

/-- The marker string "netcfg" as bytes. -/
def netcfgBytes : List Nat := [0x6e, 0x65, 0x74, 0x63, 0x66, 0x67]

def matches_device_name (name : List Nat) : Bool :=
  containsBytes (name.map ascii_lower) netcfgBytes

/-! ## split_payload (main.rs lines 96-116) -/

/-- The `while offset < data.len()` loop of `split_payload`, expressed on
the remaining slice `data[offset..]`: while bytes remain, push
`data[offset..min(offset + 17, len)]` (i.e. up to 17 bytes of the
remainder) and advance past them.  `fuel` is an explicit iteration bound
(structural recursion); every iteration consumes at least one byte, so
any `fuel ≥` the remaining length yields the loop's exact behaviour. -/
def splitLoop : Nat → List Nat → List (List Nat)
  | 0, _ => []
  | _, [] => []
  | fuel + 1, a :: rest =>
    ((a :: rest).take NEXT_PACKET_DATA_MAX) ::
      splitLoop fuel ((a :: rest).drop NEXT_PACKET_DATA_MAX)

def split_payload (data : List Nat) : List (List Nat) :=
  if data = [] then [[]]
  else if data.length ≤ FIRST_PACKET_DATA_MAX then [data]
  else data.take FIRST_PACKET_DATA_MAX ::
    splitLoop data.length (data.drop FIRST_PACKET_DATA_MAX)

/-! ## build_packets (main.rs lines 118-144) -/

/-- `u16::to_le_bytes`. -/
def toLe16 (n : Nat) : List Nat := [n % 256, n / 256 % 256]

/-- The per-chunk closure of `build_packets`, applied to the enumerated
chunk `p = (idx, chunk)`: the first chunk (`idx = 0`) gets the 3-byte
sequencing prefix plus the 6-byte message header, every later chunk
only the 3-byte sequencing prefix. -/
def mkPacket (opcode data_len raw_count : Nat) (p : Nat × List Nat) : List Nat :=
  let raw_index := (p.1 + 1) % 256
  if p.1 = 0 then
    [raw_index, raw_count, (6 + p.2.length) % 256] ++
      toLe16 PREFIX_ID ++ toLe16 opcode ++ toLe16 data_len ++ p.2
  else
    [raw_index, raw_count, p.2.length % 256] ++ p.2

def build_packets (opcode : Nat) (data : List Nat) : List (List Nat) :=
  let data_len := data.length % 65536
  let chunks := split_payload data
  let raw_count := chunks.length % 256
  chunks.enum.map (mkPacket opcode data_len raw_count)

/-! ## Packet-side decode helpers (the inverse views the spec's
round-trip property quantifies over) -/

/-- The 2-byte little-endian total-payload-length field of the first
packet (bytes 7 and 8, after the 3-byte sequencing prefix, the 2-byte
protocol prefix and the 2-byte opcode). -/
def decode_total_length (packets : List (List Nat)) : Nat :=
  (packets.headD []).getD 7 0 + 256 * (packets.headD []).getD 8 0

/-- Reassemble the payload from the packets: drop the 3-byte sequencing
prefix plus the 6-byte message header of the first packet, and the
3-byte sequencing prefix of every later packet, then concatenate. -/
def reassemble (packets : List (List Nat)) : List Nat :=
  match packets with
  | [] => []
  | first :: rest => first.drop 9 ++ (rest.map (fun p => p.drop 3)).flatten

/-! ## StatusEvent and the status-notification decoder
(main.rs lines 33-38 and 222-236) -/

structure StatusEvent where
  code : Nat
  name : String
  hex : String
deriving DecidableEq, Repr

/-- One uppercase hexadecimal digit. -/
def hexDigit (n : Nat) : Char :=
  if n < 10 then Char.ofNat (48 + n) else Char.ofNat (55 + n)

/-- Rust `format!("0x{code:04X}")` for a `u16` code. -/
def hex4 (code : Nat) : String :=
  String.mk ['0', 'x', hexDigit (code / 4096 % 16), hexDigit (code / 256 % 16),
             hexDigit (code / 16 % 16), hexDigit (code % 16)]

/-- The per-notification body of `listen_status_notifications` for a
buffer already known to come from the status characteristic: buffers
shorter than 2 bytes yield no event; otherwise the code is the
little-endian `u16` of the first two bytes. -/
def decodeStatus : List Nat → Option StatusEvent
  | b0 :: b1 :: _ =>
    some { code := b0 + 256 * b1
           name := status_name (b0 + 256 * b1)
           hex := hex4 (b0 + 256 * b1) }
  | _ => none

/-- The full per-notification filter of the listener loop: notifications
from any characteristic other than the status one are skipped. -/
def handleNotification (uuid : Nat) (value : List Nat) : Option StatusEvent :=
  if uuid ≠ STATUS_UUID then none else decodeStatus value

/-! ## Scan model (main.rs lines 25-31 and 239-294)

`scan_devices` iterates the discovered peripherals; a peripheral whose
`properties()` returns `None` is skipped, every other one is pushed to
the result list with the matched flag computed from its advertisement,
and finally the list is sorted by descending RSSI. -/

structure AdvProps where
  localName : Option (List Nat)
  rssi : Option Int
  manufacturerData : List (Nat × List Nat)
  serviceData : List (Nat × List Nat)

structure DeviceInfo where
  id : String
  name : List Nat
  rssi : Option Int
  matched : Bool
deriving DecidableEq

/-- Bytes of the fallback name "Unknown". -/
def unknownName : List Nat := [0x55, 0x6e, 0x6b, 0x6e, 0x6f, 0x77, 0x6e]

/-- The matched-flag computation of the scan loop: name check first,
then (only if still unmatched) manufacturer data, then (only if still
unmatched) service data. -/
def scanMatched (props : AdvProps) : Bool :=
  let name := props.localName.getD unknownName
  let matched := matches_device_name name
  let matched :=
    if !matched && props.manufacturerData.any (fun kv => contains_marker kv.2)
    then true else matched
  let matched :=
    if !matched && props.serviceData.any (fun kv => contains_marker kv.2)
    then true else matched
  matched

def mkDevice (id : String) (props : AdvProps) : DeviceInfo :=
  { id := id
    name := props.localName.getD unknownName
    rssi := props.rssi
    matched := scanMatched props }

/-- The scan loop over `(peripheral id, properties())` pairs. -/
def scanLoop : List (String × Option AdvProps) → List DeviceInfo
  | [] => []
  | (_, none) :: rest => scanLoop rest
  | (id, some props) :: rest => mkDevice id props :: scanLoop rest

/-- Rust `Option::cmp` over `Option<i16>`: `None` is smallest. -/
def cmpOptInt : Option Int → Option Int → Ordering
  | none, none => .eq
  | none, some _ => .lt
  | some _, none => .gt
  | some a, some b => compare a b

/-- `devices.sort_by(|a, b| b.rssi.cmp(&a.rssi))`: a stable sort whose
order accepts `a` before `b` when the comparator does not say Greater. -/
def sortDevices (devices : List DeviceInfo) : List DeviceInfo :=
  devices.mergeSort (fun a b => cmpOptInt b.rssi a.rssi ≠ .gt)

def scan_devices (peripherals : List (String × Option AdvProps)) : List DeviceInfo :=
  sortDevices (scanLoop peripherals)

/-! ## Command orchestrator (main.rs lines 375-429)

The transport side of `send_opcode` (resolve the connected peripheral,
find the characteristics, write the packets) is abstracted as an oracle
`send : opcode → payload → Except String Unit`; the embedded commands
additionally return the ordered trace of `send_opcode` invocations they
issued, so the absence of writes can be stated. -/

abbrev SendOracle := Nat → List Nat → Except String Unit

/-- `send_ssid`: reject SSIDs longer than 36 bytes before any send. -/
def send_ssid (ssid : List Nat) (send : SendOracle) :
    Except String Unit × List (Nat × List Nat) :=
  if ssid.length > 36 then (.error "SSID length exceeds 36 bytes", [])
  else (send 0xA002 ssid, [(0xA002, ssid)])

/-- `send_password`: reject passwords longer than 64 bytes before any send. -/
def send_password (password : List Nat) (send : SendOracle) :
    Except String Unit × List (Nat × List Nat) :=
  if password.length > 64 then (.error "Password length exceeds 64 bytes", [])
  else (send 0xA003 password, [(0xA003, password)])

/-- `configure_wifi`: validate both lengths, then `start`, `ssid`,
`password`, `done` in order, each via `?` (stop at the first error). -/
def configure_wifi (ssid password : List Nat) (send : SendOracle) :
    Except String Unit × List (Nat × List Nat) :=
  if ssid.length > 36 then (.error "SSID length exceeds 36 bytes", [])
  else if password.length > 64 then (.error "Password length exceeds 64 bytes", [])
  else match send 0xA001 [] with
    | .error e => (.error e, [(0xA001, [])])
    | .ok _ => match send 0xA002 ssid with
      | .error e => (.error e, [(0xA001, []), (0xA002, ssid)])
      | .ok _ => match send 0xA003 password with
        | .error e => (.error e, [(0xA001, []), (0xA002, ssid), (0xA003, password)])
        | .ok _ => match send 0xA010 [] with
          | .error e =>
            (.error e, [(0xA001, []), (0xA002, ssid), (0xA003, password), (0xA010, [])])
          | .ok _ =>
            (.ok (), [(0xA001, []), (0xA002, ssid), (0xA003, password), (0xA010, [])])

/-! ## Connection manager model (main.rs lines 178-204 and 296-362)

`connect_device` is a straight-line sequence of fallible transport
steps ending in the publication of the peripheral handle into
`AppState` and the spawn of the status listener.  Each transport call
is an oracle field of `ConnectEnv`; the output records the final
result, the stored active-peripheral handle (given its prior value),
whether `subscribe` was called, whether the listener task was spawned,
and the diagnostic events emitted. -/

structure CharFlags where
  write : Bool
  writeWithoutResponse : Bool
  notify : Bool
  indicate : Bool
  read : Bool
deriving DecidableEq

structure BleChar where
  uuid : Nat
  props : CharFlags
deriving DecidableEq

/-- `find_characteristics` (main.rs lines 178-204): the write
characteristic must support write or write-without-response, the status
characteristic must support notify, indicate or read. -/
def find_characteristics (chars : List BleChar) : Except String (BleChar × BleChar) :=
  match chars.find? (fun c =>
      c.uuid == WRITE_UUID && (c.props.write || c.props.writeWithoutResponse)) with
  | none => .error "Write characteristic not found"
  | some wc =>
    match chars.find? (fun c =>
        c.uuid == STATUS_UUID && (c.props.notify || c.props.indicate || c.props.read)) with
    | none => .error "Status characteristic not found"
    | some sc => .ok (wc, sc)

/-- The `for _ in 0..3` connect-retry loop: `last_err` is cleared and
the loop broken on the first success; after three failures the third
attempt's error remains. -/
def connectRetry (attempts : Nat → Option String) : Option String :=
  match attempts 0 with
  | none => none
  | some _ =>
    match attempts 1 with
    | none => none
    | some _ => attempts 2

structure ConnectEnv where
  adapterOutcome : Except String Unit
  peripheralIds : Except String (List String)
  alreadyConnected : Except String Bool
  connectAttempts : Nat → Option String
  discoverOutcome : Option String
  services : List Nat
  characteristics : List BleChar
  subscribeOutcome : Option String

structure ConnectOut where
  result : Except String Unit
  stored : Option String
  subscribed : Bool
  spawned : Bool
  emitted : List StatusEvent

/-- An early `return Err(e)` from `connect_device`: no store, no
subscribe, no spawn, no event; the previously stored handle is kept. -/
def connectFail (stored0 : Option String) (e : String) : ConnectOut :=
  { result := .error e, stored := stored0
    subscribed := false, spawned := false, emitted := [] }

def connect_device (env : ConnectEnv) (id : String) (stored0 : Option String) :
    ConnectOut :=
  match env.adapterOutcome with
  | .error e => connectFail stored0 e
  | .ok _ =>
  match env.peripheralIds with
  | .error e => connectFail stored0 e
  | .ok ids =>
  if ¬ ids.contains id then connectFail stored0 "Device not found"
  else
  match env.alreadyConnected with
  | .error e => connectFail stored0 e
  | .ok conn =>
  match (if conn then none else connectRetry env.connectAttempts) with
  | some e => connectFail stored0 e
  | none =>
  match env.discoverOutcome with
  | some e => connectFail stored0 e
  | none =>
  if ¬ env.services.contains SERVICE_UUID then
    connectFail stored0 "NETCFG_BLE service not found"
  else
  match find_characteristics env.characteristics with
  | .error e => connectFail stored0 e
  | .ok (_, sc) =>
  if sc.props.notify || sc.props.indicate then
    match env.subscribeOutcome with
    | some e => connectFail stored0 e
    | none =>
      { result := .ok (), stored := some id
        subscribed := true, spawned := true, emitted := [] }
  else
    { result := .ok (), stored := some id
      subscribed := false, spawned := true
      emitted := [⟨0, "STATUS_CHAR_NO_NOTIFY", "0x0000"⟩] }

/-! ## Concrete fixtures used by witnesses and counterexamples -/

/-- An advertisement whose name is "MyNetCfg" (mixed case). -/
def advMixedCase : AdvProps :=
  { localName := some [0x4D, 0x79, 0x4E, 0x65, 0x74, 0x43, 0x66, 0x67]
    rssi := some (-50)
    manufacturerData := []
    serviceData := [] }

/-- A send oracle that succeeds on every opcode. -/
def sendAllOk : SendOracle := fun _ _ => .ok ()

/-- A send oracle that fails exactly on the password opcode. -/
def sendPwdFail : SendOracle := fun op _ =>
  if op = 0xA003 then .error "pwd boom" else .ok ()

def writeCharFixture : BleChar :=
  { uuid := WRITE_UUID
    props := { write := true, writeWithoutResponse := false, notify := false
               indicate := false, read := false } }

/-- A status characteristic supporting only read (no notify/indicate). -/
def statusReadOnlyFixture : BleChar :=
  { uuid := STATUS_UUID
    props := { write := false, writeWithoutResponse := false, notify := false
               indicate := false, read := true } }

/-- A connect environment in which every transport step succeeds but the
status characteristic supports neither notify nor indicate. -/
def envNoNotify : ConnectEnv :=
  { adapterOutcome := .ok ()
    peripheralIds := .ok ["dev1"]
    alreadyConnected := .ok true
    connectAttempts := fun _ => none
    discoverOutcome := none
    services := [SERVICE_UUID]
    characteristics := [writeCharFixture, statusReadOnlyFixture]
    subscribeOutcome := none }

/-- A connect environment that fails at the service-presence check. -/
def envNoService : ConnectEnv :=
  { adapterOutcome := .ok ()
    peripheralIds := .ok ["dev1"]
    alreadyConnected := .ok true
    connectAttempts := fun _ => none
    discoverOutcome := none
    services := []
    characteristics := [writeCharFixture, statusReadOnlyFixture]
    subscribeOutcome := none }

/-! ## Codec lemmas -/

theorem splitLoop_nil (fuel : Nat) : splitLoop fuel [] = [] := by
  cases fuel <;> rfl

theorem splitLoop_flatten (fuel : Nat) :
    ∀ rest : List Nat, rest.length ≤ fuel → (splitLoop fuel rest).flatten = rest := by
  induction fuel with
  | zero =>
    intro rest h
    cases rest with
    | nil => rfl
    | cons a t => simp at h
  | succ n ih =>
    intro rest h
    cases rest with
    | nil => rfl
    | cons a t =>
      simp only [splitLoop, List.flatten_cons]
      rw [ih ((a :: t).drop NEXT_PACKET_DATA_MAX)
        (by simp only [List.length_drop, List.length_cons, NEXT_PACKET_DATA_MAX]
            simp only [List.length_cons] at h
            omega)]
      exact List.take_append_drop ..

theorem splitLoop_length (fuel : Nat) :
    ∀ rest : List Nat, rest.length ≤ fuel →
      (splitLoop fuel rest).length = (rest.length + 16) / 17 := by
  induction fuel with
  | zero =>
    intro rest h
    cases rest with
    | nil => rfl
    | cons a t => simp at h
  | succ n ih =>
    intro rest h
    cases rest with
    | nil => rfl
    | cons a t =>
      simp only [splitLoop, List.length_cons]
      rw [ih ((a :: t).drop NEXT_PACKET_DATA_MAX)
        (by simp only [List.length_drop, List.length_cons, NEXT_PACKET_DATA_MAX]
            simp only [List.length_cons] at h
            omega)]
      simp only [List.length_drop, List.length_cons, NEXT_PACKET_DATA_MAX]
      omega

theorem splitLoop_getD (fuel : Nat) :
    ∀ (rest : List Nat) (i : Nat), rest.length ≤ fuel →
      (splitLoop fuel rest).getD i [] = (rest.drop (17 * i)).take 17 := by
  induction fuel with
  | zero =>
    intro rest i h
    cases rest with
    | nil => simp [splitLoop]
    | cons a t => simp at h
  | succ n ih =>
    intro rest i h
    cases rest with
    | nil => simp [splitLoop]
    | cons a t =>
      cases i with
      | zero =>
        simp only [splitLoop, List.getD_cons_zero, Nat.mul_zero, List.drop_zero]
        rfl
      | succ j =>
        simp only [splitLoop, List.getD_cons_succ]
        rw [ih ((a :: t).drop NEXT_PACKET_DATA_MAX) j
          (by simp only [List.length_drop, List.length_cons, NEXT_PACKET_DATA_MAX]
              simp only [List.length_cons] at h
              omega)]
        rw [List.drop_drop]
        have h17 : NEXT_PACKET_DATA_MAX + 17 * j = 17 * (j + 1) := by
          simp only [NEXT_PACKET_DATA_MAX]; omega
        rw [h17]

theorem split_payload_eq (data : List Nat) :
    split_payload data =
      data.take FIRST_PACKET_DATA_MAX ::
        splitLoop data.length (data.drop FIRST_PACKET_DATA_MAX) := by
  by_cases h0 : data = []
  · subst h0; rfl
  · by_cases h1 : data.length ≤ FIRST_PACKET_DATA_MAX
    · simp only [split_payload, if_neg h0, if_pos h1]
      rw [List.take_of_length_le h1, List.drop_eq_nil_of_le h1, splitLoop_nil]
    · simp only [split_payload, if_neg h0, if_neg h1]

theorem split_payload_flatten (data : List Nat) :
    (split_payload data).flatten = data := by
  rw [split_payload_eq]
  simp only [List.flatten_cons]
  rw [splitLoop_flatten data.length (data.drop FIRST_PACKET_DATA_MAX)
    (by simp only [List.length_drop]; omega)]
  exact List.take_append_drop ..

theorem split_payload_length (data : List Nat) :
    (split_payload data).length = (data.length - 11 + 16) / 17 + 1 := by
  rw [split_payload_eq]
  simp only [List.length_cons]
  rw [splitLoop_length data.length (data.drop FIRST_PACKET_DATA_MAX)
    (by simp only [List.length_drop]; omega)]
  simp only [List.length_drop, FIRST_PACKET_DATA_MAX]

theorem split_payload_headD (data : List Nat) :
    (split_payload data).headD [] = data.take 11 := by
  rw [split_payload_eq]; rfl

theorem split_payload_tail_getD (data : List Nat) (i : Nat) :
    ((split_payload data).tail).getD i [] = ((data.drop 11).drop (17 * i)).take 17 := by
  rw [split_payload_eq]
  simp only [List.tail_cons]
  exact splitLoop_getD data.length (data.drop FIRST_PACKET_DATA_MAX) i
    (by simp only [List.length_drop]; omega)

theorem mkPacket_zero (op dl cnt : Nat) (c : List Nat) :
    mkPacket op dl cnt (0, c) =
      [1, cnt, (6 + c.length) % 256, 0xE4, 0x03, op % 256, op / 256 % 256,
       dl % 256, dl / 256 % 256] ++ c := rfl

theorem mkPacket_succ (op dl cnt k : Nat) (c : List Nat) :
    mkPacket op dl cnt (k + 1, c) = [(k + 2) % 256, cnt, c.length % 256] ++ c := by
  simp only [mkPacket, if_neg (Nat.succ_ne_zero k)]

theorem build_packets_eq (op : Nat) (data : List Nat) :
    build_packets op data =
      mkPacket op (data.length % 65536) ((split_payload data).length % 256)
          (0, data.take 11) ::
        (List.enumFrom 1 (splitLoop data.length (data.drop 11))).map
          (mkPacket op (data.length % 65536) ((split_payload data).length % 256)) := by
  simp only [build_packets]
  rw [split_payload_eq]
  rfl

theorem build_packets_length (op : Nat) (data : List Nat) :
    (build_packets op data).length = (split_payload data).length := by
  simp [build_packets]

theorem decode_total_length_eq (op : Nat) (data : List Nat) :
    decode_total_length (build_packets op data) = data.length % 65536 := by
  rw [build_packets_eq, decode_total_length]
  simp only [List.headD_cons]
  rw [mkPacket_zero]
  show data.length % 65536 % 256 + 256 * (data.length % 65536 / 256 % 256) =
    data.length % 65536
  omega

theorem cont_map_drop3 (op dl cnt : Nat) :
    ∀ (cs : List (List Nat)) (n : Nat),
      ((List.enumFrom (n + 1) cs).map (mkPacket op dl cnt)).map
        (fun q => q.drop 3) = cs := by
  intro cs
  induction cs with
  | nil => intro n; rfl
  | cons c t ih =>
    intro n
    simp only [List.enumFrom_cons, List.map_cons, mkPacket_succ]
    rw [show (([(n + 2) % 256, cnt, c.length % 256] ++ c).drop 3) = c from rfl]
    rw [ih (n + 1)]

theorem reassemble_build_packets (op : Nat) (data : List Nat) :
    reassemble (build_packets op data) = data := by
  rw [build_packets_eq]
  simp only [reassemble]
  rw [show (List.enumFrom 1 (splitLoop data.length (data.drop 11))) =
        (List.enumFrom (0 + 1) (splitLoop data.length (data.drop 11))) from rfl]
  rw [cont_map_drop3]
  rw [mkPacket_zero]
  rw [show (([1, (split_payload data).length % 256, (6 + (data.take 11).length) % 256,
      0xE4, 0x03, op % 256, op / 256 % 256,
      data.length % 65536 % 256, data.length % 65536 / 256 % 256] ++ data.take 11).drop 9)
      = data.take 11 from rfl]
  rw [splitLoop_flatten data.length (data.drop 11)
    (by simp only [List.length_drop]; omega)]
  exact List.take_append_drop ..

theorem enumFrom_map_getD (f : Nat × List Nat → List Nat) :
    ∀ (cs : List (List Nat)) (n i : Nat), i < cs.length →
      ((List.enumFrom n cs).map f).getD i [] = f (n + i, cs.getD i []) := by
  intro cs
  induction cs with
  | nil => intro n i h; simp at h
  | cons c t ih =>
    intro n i h
    cases i with
    | zero => simp [List.enumFrom_cons]
    | succ j =>
      simp only [List.enumFrom_cons, List.map_cons, List.getD_cons_succ]
      rw [ih (n + 1) j (by simpa using h)]
      have : n + 1 + j = n + (j + 1) := by omega
      rw [this]

theorem build_packets_headD (op : Nat) (data : List Nat) :
    (build_packets op data).headD [] =
      [1, (split_payload data).length % 256, (6 + (data.take 11).length) % 256,
       0xE4, 0x03, op % 256, op / 256 % 256,
       data.length % 65536 % 256, data.length % 65536 / 256 % 256] ++ data.take 11 := by
  rw [build_packets_eq]
  simp only [List.headD_cons]
  exact mkPacket_zero ..

theorem build_packets_getD_succ (op : Nat) (data : List Nat) (i : Nat)
    (h : i + 1 < (build_packets op data).length) :
    (build_packets op data).getD (i + 1) [] =
      [(i + 2) % 256, (split_payload data).length % 256,
       (((data.drop 11).drop (17 * i)).take 17).length % 256] ++
        ((data.drop 11).drop (17 * i)).take 17 := by
  have hlen : i < (splitLoop data.length (data.drop 11)).length := by
    rw [build_packets_length, split_payload_eq] at h
    simpa using h
  rw [build_packets_eq]
  simp only [List.getD_cons_succ]
  rw [enumFrom_map_getD _ _ 1 i hlen]
  rw [show (1 : Nat) + i = i + 1 from by omega]
  rw [mkPacket_succ]
  rw [splitLoop_getD data.length (data.drop 11) i
    (by simp only [List.length_drop]; omega)]

/-! ## Claim theorems -/

/-- C1 (amended): for every opcode and every payload, (a) whenever the
payload has fewer than 65536 bytes, the 2-byte little-endian
total-payload-length field of the first packet equals the payload
length — the bound is forced by the `as u16` cast of `data.len()` in
`build_packets`; and (b) for every payload regardless of size,
concatenating the data chunks of the packets (dropping each packet's
3-byte sequencing prefix and the first packet's additional 6-byte
message header) reproduces the payload exactly. -/
theorem C1_encode_round_trip (op : Nat) (data : List Nat) :
    (data.length < 65536 →
      decode_total_length (build_packets op data) = data.length) ∧
    reassemble (build_packets op data) = data := by
  refine ⟨fun h => ?_, reassemble_build_packets op data⟩
  rw [decode_total_length_eq, Nat.mod_eq_of_lt h]

theorem C1_encode_round_trip_witness :
    decode_total_length (build_packets 0xA003 (List.range 29)) =
      (List.range 29).length ∧
    reassemble (build_packets 0xA003 (List.range 29)) = List.range 29 :=
  ⟨(C1_encode_round_trip 0xA003 (List.range 29)).1 (by decide),
   (C1_encode_round_trip 0xA003 (List.range 29)).2⟩

/-- C1 counterexample: for a 65536-byte payload the `as u16` cast wraps,
so the total-payload-length field reads 0, not 65536. -/
theorem C1_counterexample :
    ¬ (decode_total_length (build_packets 0xA002 (List.replicate 65536 0)) =
        (List.replicate (65536 : Nat) (0 : Nat)).length) := by
  rw [decode_total_length_eq, List.length_replicate]
  decide

/-- C2: `build_packets` produces exactly `(len - 11 + 16) / 17 + 1`
packets (Nat subtraction truncates at 0, so this is
`ceil(max(0, len - 11) / 17) + 1`); a zero-length payload yields exactly
1 packet; and the split is greedy: the chunks concatenate back to the
payload in order, the first chunk is `data.take 11` (hence at most 11
bytes) and the `i`-th later chunk is the next up-to-17 bytes. -/
theorem C2_packet_count (op : Nat) (data : List Nat) :
    (build_packets op data).length = (data.length - 11 + 16) / 17 + 1 ∧
    (build_packets op []).length = 1 ∧
    (split_payload data).flatten = data ∧
    (split_payload data).headD [] = data.take 11 ∧
    ((split_payload data).headD []).length ≤ 11 ∧
    (∀ i : Nat, ((split_payload data).tail).getD i [] =
      ((data.drop 11).drop (17 * i)).take 17) ∧
    (∀ i : Nat, (((split_payload data).tail).getD i []).length ≤ 17) := by
  refine ⟨?_, rfl, split_payload_flatten data, split_payload_headD data, ?_, ?_, ?_⟩
  · rw [build_packets_length, split_payload_length]
  · rw [split_payload_headD]
    simp only [List.length_take]
    omega
  · exact split_payload_tail_getD data
  · intro i
    rw [split_payload_tail_getD]
    simp only [List.length_take]
    omega

/-- C3 (amended): for every opcode and payload, (a) as long as at most
255 packets are produced (payload at most 4329 bytes, since
`chunks.len() as u8` wraps at 256), packet `k` (0-based) carries first
byte `k + 1` (1-based contiguous index) and every packet's second byte
equals the number of packets produced; and (b) for every payload
regardless of size, every packet is at most 20 bytes long. -/
theorem C3_packet_numbering (op : Nat) (data : List Nat) :
    (data.length ≤ 4329 →
      (∀ k : Nat, k < (build_packets op data).length →
        ((build_packets op data).getD k []).getD 0 0 = k + 1) ∧
      (∀ k : Nat, k < (build_packets op data).length →
        ((build_packets op data).getD k []).getD 1 0 =
          (build_packets op data).length)) ∧
    (∀ k : Nat, k < (build_packets op data).length →
      ((build_packets op data).getD k []).length ≤ 20) := by
  have hsp : (split_payload data).length = (build_packets op data).length :=
    (build_packets_length op data).symm
  have hhead : (build_packets op data).getD 0 [] =
      (build_packets op data).headD [] := by
    rw [build_packets_eq]; rfl
  constructor
  · intro h
    have hN : (build_packets op data).length =
        (data.length - 11 + 16) / 17 + 1 := by
      rw [build_packets_length, split_payload_length]
    have hN255 : (build_packets op data).length ≤ 255 := by omega
    constructor
    · intro k hk
      cases k with
      | zero =>
        rw [hhead, build_packets_headD]
        rfl
      | succ i =>
        rw [build_packets_getD_succ op data i hk]
        simp only [List.cons_append, List.getD_cons_zero]
        omega
    · intro k hk
      cases k with
      | zero =>
        rw [hhead, build_packets_headD]
        simp only [List.cons_append, List.getD_cons_succ, List.getD_cons_zero]
        rw [hsp]
        omega
      | succ i =>
        rw [build_packets_getD_succ op data i hk]
        simp only [List.cons_append, List.getD_cons_succ, List.getD_cons_zero]
        rw [hsp]
        omega
  · intro k hk
    cases k with
    | zero =>
      rw [hhead, build_packets_headD]
      simp only [List.length_append, List.length_cons, List.length_nil,
        List.length_take]
      omega
    | succ i =>
      rw [build_packets_getD_succ op data i hk]
      simp only [List.length_append, List.length_cons, List.length_nil,
        List.length_take, List.length_drop]
      omega

theorem C3_packet_numbering_witness :
    ((build_packets 0xA001 (List.range 20)).getD 1 []).getD 0 0 = 1 + 1 ∧
    ((build_packets 0xA001 (List.range 20)).getD 1 []).getD 1 0 =
      (build_packets 0xA001 (List.range 20)).length ∧
    ((build_packets 0xA001 (List.range 20)).getD 1 []).length ≤ 20 :=
  ⟨((C3_packet_numbering 0xA001 (List.range 20)).1 (by decide)).1 1 (by decide),
   ((C3_packet_numbering 0xA001 (List.range 20)).1 (by decide)).2 1 (by decide),
   (C3_packet_numbering 0xA001 (List.range 20)).2 1 (by decide)⟩

/-- C3 counterexample: a 4330-byte payload yields 256 packets, and the
`as u8` cast makes every total-count byte read `256 % 256 = 0`, so the
count field of the first packet does not equal the number of packets. -/
theorem C3_counterexample :
    ¬ (((build_packets 0xA001 (List.replicate 4330 0)).getD 0 []).getD 1 0 =
        (build_packets 0xA001 (List.replicate 4330 0)).length) := by
  have h1 : (build_packets 0xA001 (List.replicate 4330 0)).length = 256 := by
    rw [build_packets_length, split_payload_length, List.length_replicate]
  have h0 : (build_packets 0xA001 (List.replicate 4330 0)).getD 0 [] =
      (build_packets 0xA001 (List.replicate 4330 0)).headD [] := by
    rw [build_packets_eq]; rfl
  rw [h0, build_packets_headD, h1]
  simp only [List.cons_append, List.getD_cons_succ, List.getD_cons_zero]
  rw [split_payload_length, List.length_replicate]
  decide

/-- C4 (amended): encoding a zero-length payload produces exactly one
packet, the header-only first packet (its 9 bytes are the 3-byte
sequencing prefix followed by the 6-byte message header, with no payload
bytes), and its this-packet's-data-length byte — the third byte — is 6,
because `build_packets` counts the 6-byte message header in the first
packet's data-length byte. -/
theorem C4_empty_payload (op : Nat) :
    (build_packets op []).length = 1 ∧
    ((build_packets op []).headD []).getD 2 0 = 6 ∧
    (build_packets op []).headD [] =
      [1, 1, 6, 0xE4, 0x03, op % 256, op / 256 % 256, 0, 0] :=
  ⟨rfl, rfl, rfl⟩

/-- C4 counterexample: the data-length byte of the empty-payload packet
is not 0 (it is 6). -/
theorem C4_counterexample :
    ¬ (((build_packets 0xA001 []).headD []).getD 2 0 = 0) := by decide

/-- C5: a status-characteristic notification shorter than 2 bytes yields
no event (silently discarded); one of length at least 2 always yields an
event whose code is the little-endian 16-bit value of the first two
bytes; the name table maps 0x0100 through 0x010A to READY .. ERROR; and
every other code still yields an event, named "UNKNOWN". -/
theorem C5_status_decode :
    (∀ value : List Nat, value.length < 2 →
      handleNotification STATUS_UUID value = none) ∧
    (∀ (b0 b1 : Nat) (rest : List Nat),
      handleNotification STATUS_UUID (b0 :: b1 :: rest) =
        some ⟨b0 + 256 * b1, status_name (b0 + 256 * b1),
              hex4 (b0 + 256 * b1)⟩) ∧
    ([0x0100, 0x0101, 0x0102, 0x0103, 0x0104, 0x0105, 0x0106, 0x0107,
      0x0108, 0x0109, 0x010A].map status_name =
      ["READY", "START", "INPROCESS", "CERT_READY", "SUCCESS", "REBOOTING",
       "IDLE", "SSID", "PWD", "CERT_ERR", "ERROR"]) ∧
    (∀ code : Nat,
      code ∉ ([0x0100, 0x0101, 0x0102, 0x0103, 0x0104, 0x0105, 0x0106,
               0x0107, 0x0108, 0x0109, 0x010A] : List Nat) →
      status_name code = "UNKNOWN") := by
  refine ⟨?_, ?_, by decide, ?_⟩
  · intro value h
    match value with
    | [] => rfl
    | [b] => rfl
    | b0 :: b1 :: rest => simp only [List.length_cons] at h; omega
  · intro b0 b1 rest
    rfl
  · intro code h
    simp only [List.mem_cons, List.not_mem_nil, or_false, not_or] at h
    obtain ⟨h1, h2, h3, h4, h5, h6, h7, h8, h9, h10, h11⟩ := h
    simp only [status_name, if_neg h1, if_neg h2, if_neg h3, if_neg h4,
      if_neg h5, if_neg h6, if_neg h7, if_neg h8, if_neg h9, if_neg h10,
      if_neg h11]

theorem C5_status_decode_witness :
    handleNotification STATUS_UUID [5] = none ∧
    handleNotification STATUS_UUID [0, 1, 255] =
      some ⟨256, "READY", "0x0100"⟩ ∧
    status_name 0xFFFF = "UNKNOWN" :=
  ⟨C5_status_decode.1 [5] (by decide),
   (C5_status_decode.2.1 0 1 [255]).trans (by decide),
   C5_status_decode.2.2.2 0xFFFF (by decide)⟩

/-- C6: the scan loop marks a device matched exactly when the advertised
local name (case-insensitively) contains "netcfg", or some
manufacturer-data value contains the contiguous bytes 0xAB 0x0A, or some
service-data value does; and every discovered peripheral with
properties — matched or not — appears in the scan result list. -/
theorem C6_device_matcher (ps : List (String × Option AdvProps))
    (id : String) (props : AdvProps) (h : (id, some props) ∈ ps) :
    scanMatched props =
      (matches_device_name (props.localName.getD unknownName) ||
       props.manufacturerData.any (fun kv => contains_marker kv.2) ||
       props.serviceData.any (fun kv => contains_marker kv.2)) ∧
    mkDevice id props ∈ scan_devices ps := by
  constructor
  · simp only [scanMatched]
    cases hm : matches_device_name (props.localName.getD unknownName) <;>
      cases hman : props.manufacturerData.any (fun kv => contains_marker kv.2) <;>
      cases hsvc : props.serviceData.any (fun kv => contains_marker kv.2) <;>
      simp
  · have hmem : mkDevice id props ∈ scanLoop ps := by
      induction ps with
      | nil => simp at h
      | cons p t ih =>
        match p with
        | (pid, none) =>
          rcases List.mem_cons.mp h with h1 | h2
          · simp at h1
          · exact ih h2
        | (pid, some q) =>
          rcases List.mem_cons.mp h with h1 | h2
          · obtain ⟨hid, hq⟩ := Prod.mk.injEq .. ▸ h1
            obtain rfl := hid
            obtain rfl := Option.some.injEq .. ▸ hq
            exact List.mem_cons_self ..
          · exact List.mem_cons_of_mem _ (ih h2)
    exact ((List.mergeSort_perm (scanLoop ps) _).mem_iff).mpr hmem

theorem C6_device_matcher_witness :
    scanMatched advMixedCase = true ∧
    mkDevice "dev1" advMixedCase ∈ scan_devices [("dev1", some advMixedCase)] :=
  ⟨((C6_device_matcher [("dev1", some advMixedCase)] "dev1" advMixedCase
      (by simp)).1).trans (by decide),
   (C6_device_matcher [("dev1", some advMixedCase)] "dev1" advMixedCase
      (by simp)).2⟩

/-- C7: with valid lengths, `configure_wifi` issues `start`, `ssid`,
`password`, `done` strictly in that order; whichever step fails first,
its error is the overall result and the trace of issued sends is exactly
the steps up to and including the failing one — no further or
compensating sends follow a failure; if all succeed, all four sends are
issued in order. -/
theorem C7_configure_order (ssid pwd : List Nat) (send : SendOracle)
    (hs : ssid.length ≤ 36) (hp : pwd.length ≤ 64) :
    (∀ e, send 0xA001 [] = .error e →
      configure_wifi ssid pwd send = (.error e, [(0xA001, [])])) ∧
    (∀ e, send 0xA001 [] = .ok () → send 0xA002 ssid = .error e →
      configure_wifi ssid pwd send =
        (.error e, [(0xA001, []), (0xA002, ssid)])) ∧
    (∀ e, send 0xA001 [] = .ok () → send 0xA002 ssid = .ok () →
      send 0xA003 pwd = .error e →
      configure_wifi ssid pwd send =
        (.error e, [(0xA001, []), (0xA002, ssid), (0xA003, pwd)])) ∧
    (∀ e, send 0xA001 [] = .ok () → send 0xA002 ssid = .ok () →
      send 0xA003 pwd = .ok () → send 0xA010 [] = .error e →
      configure_wifi ssid pwd send =
        (.error e, [(0xA001, []), (0xA002, ssid), (0xA003, pwd), (0xA010, [])])) ∧
    (send 0xA001 [] = .ok () → send 0xA002 ssid = .ok () →
      send 0xA003 pwd = .ok () → send 0xA010 [] = .ok () →
      configure_wifi ssid pwd send =
        (.ok (), [(0xA001, []), (0xA002, ssid), (0xA003, pwd), (0xA010, [])])) := by
  have hs36 : ¬ (ssid.length > 36) := by omega
  have hp64 : ¬ (pwd.length > 64) := by omega
  refine ⟨?_, ?_, ?_, ?_, ?_⟩
  · intro e h1
    simp only [configure_wifi, if_neg hs36, if_neg hp64, h1]
  · intro e h1 h2
    simp only [configure_wifi, if_neg hs36, if_neg hp64, h1, h2]
  · intro e h1 h2 h3
    simp only [configure_wifi, if_neg hs36, if_neg hp64, h1, h2, h3]
  · intro e h1 h2 h3 h4
    simp only [configure_wifi, if_neg hs36, if_neg hp64, h1, h2, h3, h4]
  · intro h1 h2 h3 h4
    simp only [configure_wifi, if_neg hs36, if_neg hp64, h1, h2, h3, h4]

theorem C7_configure_order_witness :
    configure_wifi [1] [2] sendPwdFail =
      (.error "pwd boom", [(0xA001, []), (0xA002, [1]), (0xA003, [2])]) :=
  (C7_configure_order [1] [2] sendPwdFail (by decide) (by decide)).2.2.1
    "pwd boom" rfl rfl rfl

/-- C8: `send_ssid` rejects SSIDs longer than 36 bytes and
`send_password` rejects passwords longer than 64 bytes with an error and
an empty send trace (no transport write is attempted); within bounds the
exact, untruncated byte string is passed on; and `configure_wifi`
applies both checks before issuing any send. -/
theorem C8_length_validation (ssid pwd : List Nat) (send : SendOracle) :
    (ssid.length > 36 →
      send_ssid ssid send = (.error "SSID length exceeds 36 bytes", [])) ∧
    (pwd.length > 64 →
      send_password pwd send = (.error "Password length exceeds 64 bytes", [])) ∧
    (ssid.length ≤ 36 →
      send_ssid ssid send = (send 0xA002 ssid, [(0xA002, ssid)])) ∧
    (pwd.length ≤ 64 →
      send_password pwd send = (send 0xA003 pwd, [(0xA003, pwd)])) ∧
    (ssid.length > 36 →
      configure_wifi ssid pwd send = (.error "SSID length exceeds 36 bytes", [])) ∧
    (ssid.length ≤ 36 → pwd.length > 64 →
      configure_wifi ssid pwd send =
        (.error "Password length exceeds 64 bytes", [])) := by
  refine ⟨?_, ?_, ?_, ?_, ?_, ?_⟩
  · intro h; simp only [send_ssid, if_pos h]
  · intro h; simp only [send_password, if_pos h]
  · intro h; simp only [send_ssid, if_neg (by omega : ¬ (ssid.length > 36))]
  · intro h; simp only [send_password, if_neg (by omega : ¬ (pwd.length > 64))]
  · intro h; simp only [configure_wifi, if_pos h]
  · intro h1 h2
    simp only [configure_wifi, if_neg (by omega : ¬ (ssid.length > 36)), if_pos h2]

theorem C8_length_validation_witness :
    send_ssid (List.replicate 37 65) sendAllOk =
      (.error "SSID length exceeds 36 bytes", []) ∧
    send_ssid (List.replicate 36 65) sendAllOk =
      (.ok (), [(0xA002, List.replicate 36 65)]) :=
  ⟨(C8_length_validation (List.replicate 37 65) [] sendAllOk).1 (by decide),
   ((C8_length_validation (List.replicate 36 65) [] sendAllOk).2.2.1
      (by decide)).trans rfl⟩

/-- C9 (amended): when every step up to characteristic resolution
succeeds and the resolved status characteristic supports neither notify
nor indicate, `connect_device` emits the diagnostic event (code 0, name
"STATUS_CHAR_NO_NOTIFY"), does not subscribe, and still succeeds — but
the status-listener task is spawned unconditionally, in this branch as
well, not only in the notify/indicate case. -/
theorem C9_no_notify_diagnostic (env : ConnectEnv) (id : String)
    (stored0 : Option String) (ids : List String) (wc sc : BleChar)
    (h1 : env.adapterOutcome = .ok ())
    (h2 : env.peripheralIds = .ok ids)
    (h3 : ids.contains id = true)
    (h4 : env.alreadyConnected = .ok true)
    (h5 : env.discoverOutcome = none)
    (h6 : env.services.contains SERVICE_UUID = true)
    (h7 : find_characteristics env.characteristics = .ok (wc, sc))
    (h8 : sc.props.notify = false) (h9 : sc.props.indicate = false) :
    connect_device env id stored0 =
      { result := .ok (), stored := some id, subscribed := false
        spawned := true
        emitted := [⟨0, "STATUS_CHAR_NO_NOTIFY", "0x0000"⟩] } := by
  simp only [connect_device, h1, h2, h3, h4, h5, h6, h7, h8, h9,
    not_true, if_neg, ite_true, ite_false, Bool.or_self, Bool.false_or,
    if_true, if_false, not_false_iff, Bool.not_true, reduceCtorEq]

theorem C9_no_notify_diagnostic_witness :
    connect_device envNoNotify "dev1" none =
      { result := .ok (), stored := some "dev1", subscribed := false
        spawned := true
        emitted := [⟨0, "STATUS_CHAR_NO_NOTIFY", "0x0000"⟩] } :=
  C9_no_notify_diagnostic envNoNotify "dev1" none ["dev1"]
    writeCharFixture statusReadOnlyFixture
    rfl rfl rfl rfl rfl rfl rfl rfl rfl

/-- C9 counterexample: in the concrete no-notify environment the claim
"a listener is spawned only in the notify/indicate case" fails — the
listener task is spawned here too (the spawn in `connect_device` is
unconditional). -/
theorem C9_counterexample :
    ¬ ((connect_device envNoNotify "dev1" none).spawned = false) := by
  decide

/-- Every run of `connect_device` either fails early (keeping the prior
stored handle and touching nothing) or reaches the end, storing the new
handle and spawning the listener. -/
theorem connect_device_shape (env : ConnectEnv) (id : String)
    (stored0 : Option String) :
    (∃ e, connect_device env id stored0 = connectFail stored0 e) ∨
    connect_device env id stored0 =
      { result := .ok (), stored := some id, subscribed := true
        spawned := true, emitted := [] } ∨
    connect_device env id stored0 =
      { result := .ok (), stored := some id, subscribed := false
        spawned := true
        emitted := [⟨0, "STATUS_CHAR_NO_NOTIFY", "0x0000"⟩] } := by
  unfold connect_device
  split
  · exact .inl ⟨_, rfl⟩
  · split
    · exact .inl ⟨_, rfl⟩
    · split
      · exact .inl ⟨_, rfl⟩
      · split
        · exact .inl ⟨_, rfl⟩
        · split
          · exact .inl ⟨_, rfl⟩
          · split
            · exact .inl ⟨_, rfl⟩
            · split
              · exact .inl ⟨_, rfl⟩
              · split
                · exact .inl ⟨_, rfl⟩
                · split
                  · split
                    · exact .inl ⟨_, rfl⟩
                    · exact .inr (.inl rfl)
                  · exact .inr (.inr rfl)

/-- C10: `connect_device` publishes the peripheral handle as the active
one only after every step has succeeded; when it returns an error the
previously stored handle is left unchanged, and when it succeeds the new
handle is stored. -/
theorem C10_publish_only_on_success (env : ConnectEnv) (id : String)
    (stored0 : Option String) :
    (∀ e, (connect_device env id stored0).result = .error e →
      (connect_device env id stored0).stored = stored0) ∧
    ((connect_device env id stored0).result = .ok () →
      (connect_device env id stored0).stored = some id) := by
  rcases connect_device_shape env id stored0 with ⟨e, hf⟩ | hok | hok
  · constructor
    · intro e2 _
      rw [hf]
      rfl
    · intro hres
      rw [hf] at hres
      exact absurd hres (by simp [connectFail])
  · constructor
    · intro e2 hres
      rw [hok] at hres
      exact absurd hres (by simp)
    · intro _
      rw [hok]
  · constructor
    · intro e2 hres
      rw [hok] at hres
      exact absurd hres (by simp)
    · intro _
      rw [hok]

theorem C10_publish_only_on_success_witness :
    (connect_device envNoService "dev1" (some "old")).stored = some "old" ∧
    (connect_device envNoNotify "dev1" none).stored = some "dev1" :=
  ⟨(C10_publish_only_on_success envNoService "dev1" (some "old")).1
      "NETCFG_BLE service not found" rfl,
   (C10_publish_only_on_success envNoNotify "dev1" none).2 rfl⟩

end NetCfg
